import Mathlib

/-!
Shallow embedding of the volkn-kube-cd continuous-deployment webhook
service (Go) and proofs about its behavior.  The repository holds two
revisions of the same single-file program: `main.go` (the build-completion
variant, authenticated with a single environment-supplied HMAC secret) and
an unnamed revision (the push-event variant, authenticated with two
repository-derived rotating keys fetched from a cluster secret).  Both
variants are embedded below, together with the external library behavior
they rely on: HMAC-SHA1 (crypto/hmac, crypto/sha1), hex encoding
(encoding/hex), constant-time comparison (crypto/subtle), JSON
decoding (encoding/json), string helpers (strings, strconv), and the
conflict-retry loop (k8s.io/client-go/util/retry).  Side effects against
the cluster control plane, the HTTP response writer and the Slack sink are
represented as an event trace.
-/

namespace KubeCD

/-- UTF-8 encoding of one unicode code point (Go strings are UTF-8 bytes;
`[]byte(s)` yields exactly this encoding). -/
def utf8Char (c : Nat) : List Nat :=
  if c < 128 then [c]
  else if c < 2048 then [192 + c / 64, 128 + c % 64]
  else if c < 65536 then [224 + c / 4096, 128 + c / 64 % 64, 128 + c % 64]
  else [240 + c / 262144, 128 + c / 4096 % 64, 128 + c / 64 % 64, 128 + c % 64]

/-- UTF-8 bytes of a character list. -/
def utf8Bytes (l : List Char) : List Nat :=
  l.foldr (fun c acc => utf8Char c.toNat ++ acc) []

/-- The byte sequence `[]byte(s)` of a Go string. -/
def strBytes (s : String) : List Nat := utf8Bytes s.data

/-- Truncation to a 32-bit word. -/
def w32 (n : Nat) : Nat := n % 4294967296

/-- 32-bit left rotation by `b` bits. -/
def rotl (b n : Nat) : Nat := w32 (Nat.lor (Nat.shiftLeft n b) (Nat.shiftRight n (32 - b)))

/-- 32-bit bitwise complement. -/
def notW32 (n : Nat) : Nat := Nat.xor n 4294967295

/-- Big-endian 8-byte encoding of a (length) value. -/
def be64 (n : Nat) : List Nat :=
  [n / 72057594037927936 % 256, n / 281474976710656 % 256, n / 1099511627776 % 256,
   n / 4294967296 % 256, n / 16777216 % 256, n / 65536 % 256, n / 256 % 256, n % 256]

/-- SHA-1 message padding: append 0x80, zero bytes, and the 64-bit
big-endian bit length, reaching a multiple of 64 bytes. -/
def sha1Pad (msg : List Nat) : List Nat :=
  msg ++ [128] ++ List.replicate ((119 - msg.length % 64) % 64) 0 ++ be64 (msg.length * 8)

/-- Group bytes into big-endian 32-bit words. -/
def wordsOf : List Nat → List Nat
  | b0 :: b1 :: b2 :: b3 :: rest => (((b0 * 256 + b1) * 256 + b2) * 256 + b3) :: wordsOf rest
  | _ => []

/-- Extend the (reversed) schedule by `k` further words:
`w[i] = rotl1 (w[i-3] xor w[i-8] xor w[i-14] xor w[i-16])`. -/
def sha1Extend : List Nat → Nat → List Nat
  | rev, 0 => rev
  | rev, k+1 =>
      sha1Extend
        (rotl 1 (Nat.xor (Nat.xor (rev.getD 2 0) (rev.getD 7 0))
                         (Nat.xor (rev.getD 13 0) (rev.getD 15 0))) :: rev) k

/-- The SHA-1 round function. -/
def sha1F (i b c d : Nat) : Nat :=
  if i < 20 then Nat.lor (Nat.land b c) (Nat.land (notW32 b) d)
  else if i < 40 then Nat.xor (Nat.xor b c) d
  else if i < 60 then Nat.lor (Nat.lor (Nat.land b c) (Nat.land b d)) (Nat.land c d)
  else Nat.xor (Nat.xor b c) d

/-- The SHA-1 round constants. -/
def sha1K (i : Nat) : Nat :=
  if i < 20 then 1518500249 else if i < 40 then 1859775393
  else if i < 60 then 2400959708 else 3395469782

/-- The 80 SHA-1 rounds over the schedule words. -/
def sha1Rounds : List Nat → Nat → Nat × Nat × Nat × Nat × Nat → Nat × Nat × Nat × Nat × Nat
  | [], _, st => st
  | wi :: ws, i, (a, b, c, d, e) =>
      sha1Rounds ws (i+1) (w32 (rotl 5 a + sha1F i b c d + e + sha1K i + wi), a, rotl 30 b, c, d)

/-- One SHA-1 compression of a 64-byte chunk into the running state. -/
def sha1Block (h : Nat × Nat × Nat × Nat × Nat) (chunk : List Nat) :
    Nat × Nat × Nat × Nat × Nat :=
  let sched := (sha1Extend (wordsOf chunk).reverse 64).reverse
  let r := sha1Rounds sched 0 h
  (w32 (h.1 + r.1), w32 (h.2.1 + r.2.1), w32 (h.2.2.1 + r.2.2.1),
   w32 (h.2.2.2.1 + r.2.2.2.1), w32 (h.2.2.2.2 + r.2.2.2.2))

/-- Fuel-bounded split into 64-byte chunks (the fuel is always ample). -/
def chunks64 : Nat → List Nat → List (List Nat)
  | 0, _ => []
  | _, [] => []
  | fuel+1, l => l.take 64 :: chunks64 fuel (l.drop 64)

/-- Big-endian bytes of one 32-bit word. -/
def wordBytes (w : Nat) : List Nat :=
  [w / 16777216 % 256, w / 65536 % 256, w / 256 % 256, w % 256]

/-- SHA-1 of a byte sequence (crypto/sha1). -/
def sha1 (msg : List Nat) : List Nat :=
  let padded := sha1Pad msg
  let h := (chunks64 (padded.length + 1) padded).foldl sha1Block
    (1732584193, 4023233417, 2562383102, 271733878, 3285377520)
  wordBytes h.1 ++ wordBytes h.2.1 ++ wordBytes h.2.2.1 ++ wordBytes h.2.2.2.1 ++ wordBytes h.2.2.2.2

/-- HMAC-SHA1 (crypto/hmac specialized to sha1.New, block size 64). -/
def hmacSha1 (key msg : List Nat) : List Nat :=
  let k0 := if 64 < key.length then sha1 key else key
  let kp := k0 ++ List.replicate (64 - k0.length) 0
  sha1 ((kp.map (fun b => Nat.xor b 92)) ++ sha1 ((kp.map (fun b => Nat.xor b 54)) ++ msg))

/-- One lowercase hex digit (encoding/hex alphabet). -/
def hexDigit (n : Nat) : Char := if n < 10 then Char.ofNat (48 + n) else Char.ofNat (87 + n)

/-- Lowercase hex encoding of a byte sequence (hex.EncodeToString). -/
def hexStr (l : List Nat) : String :=
  String.mk (l.foldr (fun b acc => hexDigit (b / 16) :: hexDigit (b % 16) :: acc) [])

/-- Net behavior of subtle.ConstantTimeCompare: 1 when the two byte
sequences have equal length and contents, 0 otherwise. -/
def constantTimeCompare (x y : List Nat) : Nat := if x = y then 1 else 0

/-- ASCII lowering of one character (strings.ToLower restricted to the
ASCII range; every repository name in this development is ASCII). -/
def goToLowerChar (c : Char) : Char :=
  if 65 ≤ c.toNat ∧ c.toNat ≤ 90 then Char.ofNat (c.toNat + 32) else c

/-- strings.ToLower on ASCII strings. -/
def goToLower (s : String) : String := String.mk (s.data.map goToLowerChar)

/-- strings.Replace with a single-character pattern and count -1. -/
def goReplaceChar (a b : Char) (s : String) : String :=
  String.mk (s.data.map (fun c => if c = a then b else c))

/-- Whether the first character list is a leading segment of the second. -/
def isPre : List Char → List Char → Bool
  | [], _ => true
  | _, [] => false
  | p :: ps, c :: cs => p = c && isPre ps cs

/-- strings.TrimPrefix: drop the leading segment `p` of `s` when present,
otherwise return `s` unchanged. -/
def goTrimLeading (s p : String) : String :=
  if isPre p.data s.data then String.mk (s.data.drop p.data.length) else s

/-- strings.Split on the separator dot, accumulator form. -/
def splitDotAux : List Char → List Char → List (List Char)
  | [], cur => [cur.reverse]
  | c :: cs, cur => if c = '.' then cur.reverse :: splitDotAux cs [] else splitDotAux cs (c :: cur)

/-- strings.Split(s, dot). -/
def splitDot (s : String) : List String := (splitDotAux s.data []).map String.mk

/-- Decimal digit test. -/
def isDig (c : Char) : Bool := 48 ≤ c.toNat && c.toNat ≤ 57

/-- Accumulate a decimal value over digit characters; any non-digit is an
error. -/
def digitsVal : List Char → Nat → Option Nat
  | [], acc => some acc
  | c :: cs, acc => if isDig c then digitsVal cs (acc * 10 + (c.toNat - 48)) else none

/-- strconv.Atoi: optional sign, one or more decimal digits, 64-bit range
check; any other input is an error. -/
def goAtoi (s : String) : Option Int :=
  match s.data with
  | [] => none
  | c :: cs =>
    let p := if c = '-' then (true, cs) else if c = '+' then (false, cs) else (false, c :: cs)
    match p.2 with
    | [] => none
    | _ =>
      match digitsVal p.2 0 with
      | none => none
      | some n =>
        if p.1 then (if n ≤ 9223372036854775808 then some (-(n : Int)) else none)
        else (if n < 9223372036854775808 then some (n : Int) else none)

/-- A parsed JSON value (the shape produced by encoding/json before it is
mapped onto a Go struct). -/
inductive JVal
  | jnull
  | jbool (b : Bool)
  | jnum (lexeme : String)
  | jstr (s : String)
  | jarr (xs : List JVal)
  | jobj (fs : List (String × JVal))

/-- The opening brace character. -/
def lbrace : Char := Char.ofNat 123

/-- The closing brace character. -/
def rbrace : Char := Char.ofNat 125

/-- Skip JSON whitespace. -/
def skipWs : List Char → List Char
  | [] => []
  | c :: cs => if c = ' ' ∨ c = '\n' ∨ c = '\t' ∨ c = '\r' then skipWs cs else c :: cs

/-- Hex digit value of a character. -/
def hexVal (c : Char) : Option Nat :=
  if 48 ≤ c.toNat ∧ c.toNat ≤ 57 then some (c.toNat - 48)
  else if 97 ≤ c.toNat ∧ c.toNat ≤ 102 then some (c.toNat - 87)
  else if 65 ≤ c.toNat ∧ c.toNat ≤ 70 then some (c.toNat - 55)
  else none

/-- Parse the remainder of a JSON string literal (after the opening quote):
returns the decoded content and the characters after the closing quote. -/
def pStr : List Char → Option (List Char × List Char)
  | [] => none
  | c :: cs =>
    if c = '"' then some ([], cs)
    else if c = '\\' then
      match cs with
      | [] => none
      | e :: cs2 =>
        if e = 'u' then
          match cs2 with
          | h1 :: h2 :: h3 :: h4 :: cs3 =>
            match hexVal h1, hexVal h2, hexVal h3, hexVal h4 with
            | some a, some b, some c2, some d =>
              match pStr cs3 with
              | some (out, r) => some (Char.ofNat (((a*16+b)*16+c2)*16+d) :: out, r)
              | none => none
            | _, _, _, _ => none
          | _ => none
        else
          match (if e = '"' then some '"'
                 else if e = '\\' then some '\\'
                 else if e = '/' then some '/'
                 else if e = 'n' then some '\n'
                 else if e = 't' then some '\t'
                 else if e = 'r' then some '\r'
                 else if e = 'b' then some (Char.ofNat 8)
                 else if e = 'f' then some (Char.ofNat 12)
                 else none) with
          | some ch =>
            match pStr cs2 with
            | some (out, r) => some (ch :: out, r)
            | none => none
          | none => none
    else
      match pStr cs with
      | some (out, r) => some (c :: out, r)
      | none => none

/-- Characters that may appear in a JSON number lexeme. -/
def numChar (c : Char) : Bool :=
  isDig c || c = '-' || c = '+' || c = '.' || c = 'e' || c = 'E'

/-- Lex a maximal run of number characters. -/
def lexNum : List Char → List Char × List Char
  | [] => ([], [])
  | c :: cs =>
    if numChar c then
      match lexNum cs with
      | (pre, rest) => (c :: pre, rest)
    else ([], c :: cs)

/-- Parser mode: a whole value, the tail of an array, or the tail of an
object (with the elements or fields accumulated so far). -/
inductive PM
  | val
  | arrTail (acc : List JVal)
  | objTail (acc : List (String × JVal))
  | objFirst
  | arrFirst

/-- Fuel-bounded recursive-descent JSON parser.  `pstep fuel PM.val s`
parses one JSON value off `s` and returns it with the remaining input. -/
def pstep : Nat → PM → List Char → Option (JVal × List Char)
  | 0, _, _ => none
  | fuel+1, PM.val, s =>
    match skipWs s with
    | [] => none
    | c :: cs =>
      if c = '"' then
        match pStr cs with
        | some (out, r) => some (JVal.jstr (String.mk out), r)
        | none => none
      else if c = lbrace then pstep fuel PM.objFirst cs
      else if c = '[' then pstep fuel PM.arrFirst cs
      else if c = 't' then
        match cs with
        | 'r' :: 'u' :: 'e' :: r => some (JVal.jbool true, r)
        | _ => none
      else if c = 'f' then
        match cs with
        | 'a' :: 'l' :: 's' :: 'e' :: r => some (JVal.jbool false, r)
        | _ => none
      else if c = 'n' then
        match cs with
        | 'u' :: 'l' :: 'l' :: r => some (JVal.jnull, r)
        | _ => none
      else if numChar c then
        match lexNum (c :: cs) with
        | (pre, rest) => some (JVal.jnum (String.mk pre), rest)
      else none
  | fuel+1, PM.arrFirst, s =>
    match skipWs s with
    | [] => none
    | c :: cs =>
      if c = ']' then some (JVal.jarr [], cs)
      else
        match pstep fuel PM.val (c :: cs) with
        | some (v, r) => pstep fuel (PM.arrTail [v]) r
        | none => none
  | fuel+1, PM.arrTail acc, s =>
    match skipWs s with
    | [] => none
    | c :: cs =>
      if c = ']' then some (JVal.jarr acc, cs)
      else if c = ',' then
        match pstep fuel PM.val cs with
        | some (v, r) => pstep fuel (PM.arrTail (acc ++ [v])) r
        | none => none
      else none
  | fuel+1, PM.objFirst, s =>
    match skipWs s with
    | [] => none
    | c :: cs =>
      if c = rbrace then some (JVal.jobj [], cs)
      else if c = '"' then
        match pStr cs with
        | some (k, r) =>
          match skipWs r with
          | ':' :: r2 =>
            match pstep fuel PM.val r2 with
            | some (v, r3) => pstep fuel (PM.objTail [(String.mk k, v)]) r3
            | none => none
          | _ => none
        | none => none
      else none
  | fuel+1, PM.objTail acc, s =>
    match skipWs s with
    | [] => none
    | c :: cs =>
      if c = rbrace then some (JVal.jobj acc, cs)
      else if c = ',' then
        match skipWs cs with
        | q :: r =>
          if q = '"' then
            match pStr r with
            | some (k, r1) =>
              match skipWs r1 with
              | ':' :: r2 =>
                match pstep fuel PM.val r2 with
                | some (v, r3) => pstep fuel (PM.objTail (acc ++ [(String.mk k, v)])) r3
                | none => none
              | _ => none
            | none => none
          else none
        | [] => none
      else none

/-- json.Unmarshal, syntax phase: parse a single JSON value and require
only whitespace after it. -/
def jsonParse (s : String) : Option JVal :=
  match pstep (s.data.length + 2) PM.val s.data with
  | some (v, rest) => if skipWs rest = [] then some v else none
  | none => none

/-- ASCII-case-insensitive string equality (encoding/json field matching
falls back to a case-insensitive match). -/
def eqFold (a b : String) : Bool := goToLower a = goToLower b

/-- Look up a JSON object field by struct tag: exact match first, then
case-insensitive. -/
def objGet (fs : List (String × JVal)) (k : String) : Option JVal :=
  match fs.find? (fun p => p.1 = k) with
  | some p => some p.2
  | none =>
    match fs.find? (fun p => eqFold p.1 k) with
    | some p => some p.2
    | none => none

/-- Decode an optional JSON field into a Go string: a missing field or
null leaves the zero value; a non-string value is a type error. -/
def decStr : Option JVal → Except String String
  | none => Except.ok ""
  | some JVal.jnull => Except.ok ""
  | some (JVal.jstr s) => Except.ok s
  | some _ => Except.error "json: cannot unmarshal value into field of type string"

/-- Decode an optional JSON field into a Go []string. -/
def decStrList : Option JVal → Except String (List String)
  | none => Except.ok []
  | some JVal.jnull => Except.ok []
  | some (JVal.jarr xs) =>
    xs.foldr
      (fun x acc =>
        match x, acc with
        | JVal.jstr s, Except.ok l => Except.ok (s :: l)
        | JVal.jnull, Except.ok l => Except.ok ("" :: l)
        | _, Except.ok _ => Except.error "json: cannot unmarshal array element into string"
        | _, Except.error e => Except.error e)
      (Except.ok [])
  | some _ => Except.error "json: cannot unmarshal value into field of type []string"

/-- Decode an optional JSON field into the fields of a nested struct: a
missing field or null leaves the zero struct (no fields). -/
def decObj : Option JVal → Except String (List (String × JVal))
  | none => Except.ok []
  | some JVal.jnull => Except.ok []
  | some (JVal.jobj fs) => Except.ok fs
  | some _ => Except.error "json: cannot unmarshal value into struct field"

/-- The top-level value passed to json.Unmarshal with a struct target must
be an object (or null, which leaves the zero value). -/
def decodeTop : Option JVal → Except String (List (String × JVal))
  | none => Except.error "unexpected end of JSON input"
  | some JVal.jnull => Except.ok []
  | some (JVal.jobj fs) => Except.ok fs
  | some _ => Except.error "json: cannot unmarshal value into Go value of type main.Message"

/-- json.Marshal escaping of one character inside a string value
(including the default HTML escaping of encoding/json). -/
def jsonEscChar (c : Char) : List Char :=
  if c = '"' then ['\\', '"']
  else if c = '\\' then ['\\', '\\']
  else if c = '\n' then ['\\', 'n']
  else if c = '\r' then ['\\', 'r']
  else if c = '\t' then ['\\', 't']
  else if c = '<' then ('\\' :: 'u' :: '0' :: '0' :: '3' :: 'c' :: [])
  else if c = '>' then ('\\' :: 'u' :: '0' :: '0' :: '3' :: 'e' :: [])
  else if c = '&' then ('\\' :: 'u' :: '0' :: '0' :: '2' :: '6' :: [])
  else if c.toNat < 32 then ('\\' :: 'u' :: '0' :: '0' :: hexDigit (c.toNat / 16) :: hexDigit (c.toNat % 16) :: [])
  else [c]

/-- json.Marshal escaping of a string value. -/
def jsonEscape (s : String) : String :=
  String.mk (s.data.foldr (fun c acc => jsonEscChar c ++ acc) [])

/-- json.Marshal of the ResponseMessage struct.  Both revisions declare
the struct as Success bool with json tag error and Message string with
json tag message, so the boolean is serialized under the key error. -/
def marshalResponseMessage (success : Bool) (msg : String) : String :=
  "\x7b\"error\":" ++ (if success then "true" else "false")
    ++ ",\"message\":\"" ++ jsonEscape msg ++ "\"\x7d"

/-- A container of a workload pod template: name and mutable image. -/
structure Container where
  name : String := ""
  image : String := ""
deriving DecidableEq

/-- A listed workload (Deployment or StatefulSet item): name, namespace
(field ns) and label map. -/
structure Workload where
  name : String := ""
  ns : String := ""
  labels : List (String × String) := []
deriving DecidableEq

/-- A control-plane error together with its IsConflict classification
(apierrors.IsConflict on the status reason). -/
structure KubeErr where
  msg : String := ""
  conflict : Bool := false
deriving DecidableEq

/-- The control-plane responses consumed by one closure invocation of the
retry loop: the fresh Get result (the freshly fetched container list, or
an error) and the Update result (none = success). -/
structure AttemptEnv where
  fresh : Except KubeErr (List Container) := Except.ok []
  upd : Option KubeErr := none

/-- One observable action of a handler execution: an HTTP response write,
a control-plane call, or a Slack notification. -/
inductive Ev
  | respond (status : Nat) (body : String)
  | secretGet (ns name : String)
  | listDeps (sel : String)
  | listSets (sel : String)
  | getDep (ns name : String)
  | updateDep (ns name img : String)
  | getSet (ns name : String)
  | updateSet (ns name img : String)
  | notify (text : String)
deriving DecidableEq

/-- The two workload kinds sharing the update protocol. -/
inductive WKind
  | dep
  | set
deriving DecidableEq

/-- The Get event for a workload kind. -/
def getEv : WKind → String → String → Ev
  | WKind.dep => Ev.getDep
  | WKind.set => Ev.getSet

/-- The Update event for a workload kind. -/
def updEv : WKind → String → String → String → Ev
  | WKind.dep => Ev.updateDep
  | WKind.set => Ev.updateSet

/-- The Slack text posted after a successful update. -/
def successText : WKind → Workload → String
  | WKind.dep, w =>
    "Successfully updated deployment " ++ w.name ++ " in namespace " ++ w.ns
      ++ " with the newest image tag."
  | WKind.set, w =>
    "Successfully updated statefulSet " ++ w.name ++ " in namespace " ++ w.ns
      ++ " with the newest image tag."

/-- Go map indexing on the label map: a missing key yields the empty
string. -/
def lookupLabel (ls : List (String × String)) (key : String) : String :=
  match ls.find? (fun p => p.1 = key) with
  | some p => p.2
  | none => ""

/-- The label-value decode performed per workload: split the value on the
dot, require exactly two parts, and parse the second with strconv.Atoi.
none models the skip-with-warning path of the source. -/
def decodeLabelValue (s : String) : Option (String × Int) :=
  match splitDot s with
  | [b, p] =>
    (match goAtoi p with
     | some n => some (b, n)
     | none => none)
  | _ => none

/-- Outcome of one closure invocation inside retry.RetryOnConflict:
a Go runtime panic (negative container index), an error return, or a
successful update. -/
inductive ClosureRes
  | panicked
  | failed (e : KubeErr)
  | updated
deriving DecidableEq

/-- One invocation of the update closure: re-fetch the workload, check
len(containers) > pos, mutate the indexed container image and update.
A pos that passes the check but is negative panics at the indexing
operation, after the Get but before any Update. -/
def updateAttempt (k : WKind) (w : Workload) (env : AttemptEnv) (pos : Int) (img : String) :
    List Ev × ClosureRes :=
  match env.fresh with
  | Except.error e => ([getEv k w.ns w.name], ClosureRes.failed e)
  | Except.ok cs =>
    if pos < (cs.length : Int) then
      if pos < 0 then ([getEv k w.ns w.name], ClosureRes.panicked)
      else
        ([getEv k w.ns w.name, updEv k w.ns w.name img],
         match env.upd with
         | none => ClosureRes.updated
         | some e => ClosureRes.failed e)
    else
      ([getEv k w.ns w.name],
       ClosureRes.failed { msg := "label contains invalid container position", conflict := false })

/-- retry.DefaultRetry.Steps of k8s client-go: at most 5 closure
invocations. -/
def defaultRetrySteps : Nat := 5

/-- Final outcome of the retry loop around the update closure. -/
inductive RetryOut
  | panicked
  | errOut (msg : String)
  | success
deriving DecidableEq

/-- retry.RetryOnConflict(DefaultRetry, closure): invoke the closure with
the per-attempt control-plane responses, stop on success or on any
non-conflict error, retry on a conflict error up to the step bound, and
report the last conflict when the bound is exhausted (client-go OnError
over wait.ExponentialBackoff). -/
def runRetry (k : WKind) (w : Workload) (att : Nat → AttemptEnv) (pos : Int) (img : String) :
    Nat → Nat → Option KubeErr → List Ev × RetryOut
  | 0, _, last =>
    ([], RetryOut.errOut (match last with
      | some e => e.msg
      | none => "timed out waiting for the condition"))
  | steps+1, i, _ =>
    match updateAttempt k w (att i) pos img with
    | (evs, res) =>
      match res with
      | ClosureRes.panicked => (evs, RetryOut.panicked)
      | ClosureRes.updated => (evs, RetryOut.success)
      | ClosureRes.failed e =>
        if e.conflict then
          match runRetry k w att pos img steps (i+1) (some e) with
          | (evs2, out) => (evs ++ evs2, out)
        else (evs, RetryOut.errOut e.msg)

/-- Process one listed workload: decode its label value (skip silently on
a malformed value or a branch mismatch, as the source logs and
continues), then run the bounded conflict-retry update and notify Slack
on success.  The boolean reports a Go panic escaping the closure. -/
def processOne (k : WKind) (key branch img : String) (att : Nat → AttemptEnv) (w : Workload) :
    List Ev × Bool :=
  match decodeLabelValue (lookupLabel w.labels key) with
  | none => ([], false)
  | some (b, pos) =>
    if b = branch then
      match runRetry k w att pos img defaultRetrySteps 0 none with
      | (evs, RetryOut.panicked) => (evs, true)
      | (evs, RetryOut.errOut _) => (evs, false)
      | (evs, RetryOut.success) => (evs ++ [Ev.notify (successText k w)], false)
    else ([], false)

/-- The per-kind workload loop.  A panic escaping one iteration aborts
the remaining iterations (and everything after the loop). -/
def processAll (k : WKind) (key branch img : String) (att : Workload → Nat → AttemptEnv) :
    List Workload → List Ev × Bool
  | [] => ([], false)
  | w :: ws =>
    match processOne k key branch img (att w) w with
    | (evs, true) => (evs, true)
    | (evs, false) =>
      match processAll k key branch img att ws with
      | (rest, b) => (evs ++ rest, b)

/-- An inbound HTTP request: path, method, the result of reading the body
(ioutil.ReadAll), and the x-hub-signature header. -/
structure Request where
  path : String := "/"
  method : String := "POST"
  body : Except String String := Except.ok ""
  sigHeader : String := ""

namespace Push

/-- The github object of the push-event notification. -/
structure MessageGithub where
  sha : String := ""
  repository : String := ""
  ref : String := ""
deriving DecidableEq

/-- The push-event notification payload (the Message struct of the
unnamed revision). -/
structure Message where
  github : MessageGithub := {}
  image : String := ""
deriving DecidableEq

/-- Field mapping of the github object. -/
def decGithub (fs : List (String × JVal)) : Except String MessageGithub := do
  let sha ← decStr (objGet fs "sha")
  let repository ← decStr (objGet fs "repository")
  let ref ← decStr (objGet fs "ref")
  pure { sha := sha, repository := repository, ref := ref }

/-- json.Unmarshal into the push-event Message. -/
def unmarshal (s : String) : Except String Message := do
  let fs ← decodeTop (jsonParse s)
  let gfs ← decObj (objGet fs "github")
  let gh ← decGithub gfs
  let image ← decStr (objGet fs "image")
  pure { github := gh, image := image }

/-- CreateSignature of the unnamed revision: HMAC-SHA1 of the input under
the key, as raw bytes. -/
def CreateSignature (input key : List Nat) : List Nat := hmacSha1 key input

/-- CreateSignatureHash of the unnamed revision: the prefixed lowercase
hex digest string. -/
def CreateSignatureHash (sig : List Nat) : String := "sha1=" ++ hexStr sig

/-- The secret data fetched per request: the entries master_key and
master_key_old of the cluster secret (a missing entry is the empty byte
sequence, as with a Go map of slices). -/
structure SecretData where
  masterKey : List Nat := []
  masterKeyOld : List Nat := []

/-- The candidate signature under the current repository-derived key. -/
def sigExpected (sd : SecretData) (repo body : String) : String :=
  CreateSignatureHash (CreateSignature (strBytes body) (CreateSignature (strBytes repo) sd.masterKey))

/-- The candidate signature under the previous repository-derived key. -/
def sigExpectedOld (sd : SecretData) (repo body : String) : String :=
  CreateSignatureHash (CreateSignature (strBytes body) (CreateSignature (strBytes repo) sd.masterKeyOld))

/-- The rejection condition of the unnamed revision: the header matches
neither candidate under constant-time comparison. -/
def signatureRejected (header : String) (sd : SecretData) (repo body : String) : Bool :=
  (constantTimeCompare (strBytes header) (strBytes (sigExpected sd repo body)) != 1)
    && (constantTimeCompare (strBytes header) (strBytes (sigExpectedOld sd repo body)) != 1)

/-- The normalized update target derived from a decoded push-event
payload: the repository, the branch with the refs/heads/ ref-path
stripped (strings.TrimPrefix at the branch comparisons), and the image
with the commit hash appended as tag (the Sprintf at the updates). -/
structure Target where
  repository : String := ""
  branch : String := ""
  image : String := ""
deriving DecidableEq

/-- The target values the push handler computes from the decoded body. -/
def pushTarget (m : Message) : Target :=
  { repository := m.github.repository,
    branch := goTrimLeading m.github.ref "refs/heads/",
    image := m.image ++ ":" ++ m.github.sha }

/-- The external state of one push-variant request: secret coordinates
(environment), the Secrets Get result, the two list results, and the
per-workload per-attempt Get/Update results. -/
structure PushEnv where
  secretNs : String := ""
  secretName : String := ""
  secret : Except KubeErr SecretData := Except.ok {}
  deps : Except KubeErr (List Workload) := Except.ok []
  sets : Except KubeErr (List Workload) := Except.ok []
  depAtt : Workload → Nat → AttemptEnv := fun _ _ => {}
  setAtt : Workload → Nat → AttemptEnv := fun _ _ => {}

/-- The Webhook handler of the unnamed revision, as the trace of its
observable actions plus a flag for a Go panic escaping the handler.
Flow: route check, read body, json.Unmarshal, fetch the secret from the
control plane, derive the two candidate keys from the decoded repository,
verify the signature, acknowledge with 200, list both workload kinds by
the derived label key, and run the per-workload update loops. -/
def Webhook (req : Request) (env : PushEnv) : List Ev × Bool :=
  if req.path ≠ "/" ∨ req.method ≠ "POST" then
    ([Ev.respond 404 "404 page not found"], false)
  else
    match req.body with
    | Except.error e => ([Ev.respond 500 e], false)
    | Except.ok bodyStr =>
      match unmarshal bodyStr with
      | Except.error e => ([Ev.respond 500 e], false)
      | Except.ok body =>
        match env.secret with
        | Except.error _ => ([Ev.secretGet env.secretNs env.secretName], false)
        | Except.ok sd =>
          if signatureRejected req.sigHeader sd body.github.repository bodyStr then
            ([Ev.secretGet env.secretNs env.secretName,
              Ev.respond 401 "hmac signature verification failed"], false)
          else
            let ack := marshalResponseMessage true ("Sucessfully parsed " ++ body.github.repository)
            let labelKey := "ki-cd/" ++ goReplaceChar '/' '_' (goToLower body.github.repository)
            let t := pushTarget body
            let pre := [Ev.secretGet env.secretNs env.secretName, Ev.respond 200 ack,
                        Ev.listDeps labelKey]
            match env.deps with
            | Except.error _ => (pre, false)
            | Except.ok dlist =>
              let pre2 := pre ++ [Ev.listSets labelKey]
              match env.sets with
              | Except.error _ => (pre2, false)
              | Except.ok slist =>
                let rd := processAll WKind.dep labelKey t.branch t.image env.depAtt dlist
                if rd.2 then (pre2 ++ rd.1, true)
                else
                  let rs := processAll WKind.set labelKey t.branch t.image env.setAtt slist
                  (pre2 ++ rd.1 ++ rs.1, rs.2)

end Push

namespace Build

/-- The repoSource object of the build-completion notification. -/
structure MessageRepoSource where
  projectId : String := ""
  repoName : String := ""
  branchName : String := ""
deriving DecidableEq

/-- The source object. -/
structure MessageSource where
  repoSource : MessageRepoSource := {}
deriving DecidableEq

/-- A start/end timing pair. -/
structure MessageTiming where
  startTime : String := ""
  endTime : String := ""
deriving DecidableEq

/-- One build step (accepted but not interpreted). -/
structure MessageStep where
  name : String := ""
  args : List String := []
  timing : MessageTiming := {}
  pullTiming : MessageTiming := {}
  status : String := ""
deriving DecidableEq

/-- One produced image record of the results object. -/
structure MessageResultsImage where
  name : String := ""
  digest : String := ""
  pushTiming : MessageTiming := {}
deriving DecidableEq

/-- The results object. -/
structure MessageResults where
  images : List MessageResultsImage := []
  buildStepImages : List String := []
  buildStepOutputs : List String := []
deriving DecidableEq

/-- The artifacts object. -/
structure MessageArtifacts where
  images : List String := []
deriving DecidableEq

/-- The resolvedRepoSource object. -/
structure MessageResolvedRepoSource where
  projectId : String := ""
  repoName : String := ""
  commitSha : String := ""
deriving DecidableEq

/-- The sourceProvenance object. -/
structure MessageSourceProvenance where
  resolvedRepoSource : MessageResolvedRepoSource := {}
deriving DecidableEq

/-- The options object. -/
structure MessageOptions where
  substitutionOption : String := ""
  logging : String := ""
deriving DecidableEq

/-- The timing object with the BUILD, FETCHSOURCE and PUSH phases. -/
structure MessageGeneralTiming where
  buildPhase : MessageTiming := {}
  fetchSource : MessageTiming := {}
  pushPhase : MessageTiming := {}
deriving DecidableEq

/-- The build-completion notification payload (the Message struct of
main.go). -/
structure Message where
  id : String := ""
  projectId : String := ""
  status : String := ""
  source : MessageSource := {}
  steps : List MessageStep := []
  results : MessageResults := {}
  createTime : String := ""
  startTime : String := ""
  finishTime : String := ""
  timeout : String := ""
  images : List String := []
  artifacts : MessageArtifacts := {}
  logsBucket : String := ""
  sourceProvenance : MessageSourceProvenance := {}
  buildTriggerId : String := ""
  options : MessageOptions := {}
  logUrl : String := ""
  tags : List String := []
  timing : MessageGeneralTiming := {}
deriving DecidableEq

/-- Decode an optional JSON field into a list of values, one per array
element. -/
def decListWith (f : Option JVal → Except String α) : Option JVal → Except String (List α)
  | none => Except.ok []
  | some JVal.jnull => Except.ok []
  | some (JVal.jarr xs) =>
    xs.foldr
      (fun x acc =>
        match acc with
        | Except.error e => Except.error e
        | Except.ok l =>
          match f (some x) with
          | Except.ok v => Except.ok (v :: l)
          | Except.error e => Except.error e)
      (Except.ok [])
  | some _ => Except.error "json: cannot unmarshal value into slice field"

/-- Field mapping of a timing pair. -/
def decTiming (o : Option JVal) : Except String MessageTiming := do
  let fs ← decObj o
  let s ← decStr (objGet fs "startTime")
  let e ← decStr (objGet fs "endTime")
  pure { startTime := s, endTime := e }

/-- Field mapping of one build step. -/
def decStep (o : Option JVal) : Except String MessageStep := do
  let fs ← decObj o
  let n ← decStr (objGet fs "name")
  let a ← decStrList (objGet fs "args")
  let t ← decTiming (objGet fs "timing")
  let pt ← decTiming (objGet fs "pullTiming")
  let st ← decStr (objGet fs "status")
  pure { name := n, args := a, timing := t, pullTiming := pt, status := st }

/-- Field mapping of one produced image record. -/
def decResultsImage (o : Option JVal) : Except String MessageResultsImage := do
  let fs ← decObj o
  let n ← decStr (objGet fs "name")
  let d ← decStr (objGet fs "digest")
  let pt ← decTiming (objGet fs "pushTiming")
  pure { name := n, digest := d, pushTiming := pt }

/-- Field mapping of the results object. -/
def decResults (o : Option JVal) : Except String MessageResults := do
  let fs ← decObj o
  let im ← decListWith decResultsImage (objGet fs "images")
  let bi ← decStrList (objGet fs "buildStepImages")
  let bo ← decStrList (objGet fs "buildStepOutputs")
  pure { images := im, buildStepImages := bi, buildStepOutputs := bo }

/-- Field mapping of the artifacts object. -/
def decArtifacts (o : Option JVal) : Except String MessageArtifacts := do
  let fs ← decObj o
  let im ← decStrList (objGet fs "images")
  pure { images := im }

/-- Field mapping of the resolvedRepoSource object. -/
def decResolvedRepoSource (o : Option JVal) : Except String MessageResolvedRepoSource := do
  let fs ← decObj o
  let p ← decStr (objGet fs "projectId")
  let r ← decStr (objGet fs "repoName")
  let c ← decStr (objGet fs "commitSha")
  pure { projectId := p, repoName := r, commitSha := c }

/-- Field mapping of the sourceProvenance object. -/
def decSourceProvenance (o : Option JVal) : Except String MessageSourceProvenance := do
  let fs ← decObj o
  let r ← decResolvedRepoSource (objGet fs "resolvedRepoSource")
  pure { resolvedRepoSource := r }

/-- Field mapping of the options object. -/
def decOptions (o : Option JVal) : Except String MessageOptions := do
  let fs ← decObj o
  let s ← decStr (objGet fs "substitutionOption")
  let l ← decStr (objGet fs "logging")
  pure { substitutionOption := s, logging := l }

/-- Field mapping of the general timing object. -/
def decGeneralTiming (o : Option JVal) : Except String MessageGeneralTiming := do
  let fs ← decObj o
  let b ← decTiming (objGet fs "BUILD")
  let f ← decTiming (objGet fs "FETCHSOURCE")
  let p ← decTiming (objGet fs "PUSH")
  pure { buildPhase := b, fetchSource := f, pushPhase := p }

/-- Field mapping of the repoSource object. -/
def decRepoSource (o : Option JVal) : Except String MessageRepoSource := do
  let fs ← decObj o
  let p ← decStr (objGet fs "projectId")
  let r ← decStr (objGet fs "repoName")
  let b ← decStr (objGet fs "branchName")
  pure { projectId := p, repoName := r, branchName := b }

/-- Field mapping of the source object. -/
def decSource (o : Option JVal) : Except String MessageSource := do
  let fs ← decObj o
  let r ← decRepoSource (objGet fs "repoSource")
  pure { repoSource := r }

/-- json.Unmarshal into the build-completion Message. -/
def unmarshal (s : String) : Except String Message := do
  let fs ← decodeTop (jsonParse s)
  let id ← decStr (objGet fs "id")
  let projectId ← decStr (objGet fs "projectId")
  let status ← decStr (objGet fs "status")
  let source ← decSource (objGet fs "source")
  let steps ← decListWith decStep (objGet fs "steps")
  let results ← decResults (objGet fs "results")
  let createTime ← decStr (objGet fs "createTime")
  let startTime ← decStr (objGet fs "startTime")
  let finishTime ← decStr (objGet fs "finishTime")
  let timeout ← decStr (objGet fs "timeout")
  let images ← decStrList (objGet fs "images")
  let artifacts ← decArtifacts (objGet fs "artifacts")
  let logsBucket ← decStr (objGet fs "logsBucket")
  let sourceProvenance ← decSourceProvenance (objGet fs "sourceProvenance")
  let buildTriggerId ← decStr (objGet fs "buildTriggerId")
  let options ← decOptions (objGet fs "options")
  let logUrl ← decStr (objGet fs "logUrl")
  let tags ← decStrList (objGet fs "tags")
  let timing ← decGeneralTiming (objGet fs "timing")
  pure { id := id, projectId := projectId, status := status, source := source, steps := steps,
         results := results, createTime := createTime, startTime := startTime,
         finishTime := finishTime, timeout := timeout, images := images, artifacts := artifacts,
         logsBucket := logsBucket, sourceProvenance := sourceProvenance,
         buildTriggerId := buildTriggerId, options := options, logUrl := logUrl, tags := tags,
         timing := timing }

/-- CreateSignature of main.go: the prefixed lowercase hex HMAC-SHA1
digest of the input under the environment-supplied secret string. -/
def CreateSignature (input : List Nat) (key : String) : String :=
  "sha1=" ++ hexStr (hmacSha1 (strBytes key) input)

/-- The rejection condition of main.go: the header does not match the
single candidate signature under constant-time comparison. -/
def signatureRejected (header : String) (bodyBytes : List Nat) (key : String) : Bool :=
  constantTimeCompare (strBytes header) (strBytes (CreateSignature bodyBytes key)) != 1

/-- The external state of one build-variant request: the process-wide
HMAC secret, the Deployments list result and the per-workload per-attempt
Get/Update results. -/
structure BuildEnv where
  hmacSecret : String := ""
  deps : Except KubeErr (List Workload) := Except.ok []
  depAtt : Workload → Nat → AttemptEnv := fun _ _ => {}

/-- The part of the main.go handler that runs after a successful decode:
the empty-image check with its 400 response, the 200 acknowledgment, the
Deployments list by the derived label key, and the per-deployment update
loop (main.go updates only Deployments). -/
def afterDecode (body : Message) (env : BuildEnv) : List Ev × Bool :=
  if body.images.length < 1 ∨ body.images.getD 0 "" = "" then
    ([Ev.respond 400 "cannot update without a new image tag"], false)
  else
    let ack := marshalResponseMessage true
      ("Sucessfully parsed " ++ body.source.repoSource.repoName)
    let labelKey := "kube.volkn.cloud/cloud-build-cd-name_"
      ++ goToLower body.source.repoSource.repoName
    let pre := [Ev.respond 200 ack, Ev.listDeps labelKey]
    match env.deps with
    | Except.error _ => (pre, false)
    | Except.ok dlist =>
      let rd := processAll WKind.dep labelKey body.source.repoSource.branchName
        (body.images.getD 0 "") env.depAtt dlist
      (pre ++ rd.1, rd.2)

/-- The Webhook handler of main.go, as the trace of its observable
actions plus a flag for a Go panic escaping the handler.  Flow: route
check, read body, verify the signature under the single environment
secret, json.Unmarshal, then the post-decode phase. -/
def Webhook (req : Request) (env : BuildEnv) : List Ev × Bool :=
  if req.path ≠ "/" ∨ req.method ≠ "POST" then
    ([Ev.respond 404 "404 page not found"], false)
  else
    match req.body with
    | Except.error e => ([Ev.respond 500 e], false)
    | Except.ok bodyStr =>
      if signatureRejected req.sigHeader (strBytes bodyStr) env.hmacSecret then
        ([Ev.respond 401 "hmac signature verification failed"], false)
      else
        match unmarshal bodyStr with
        | Except.error e => ([Ev.respond 500 e], false)
        | Except.ok body => afterDecode body env

end Build

/-- Status-200 test on an event. -/
def is200 (e : Ev) : Bool :=
  match e with
  | Ev.respond s _ => s == 200
  | _ => false

/-- Whether an event is a control-plane call (secret Get, workload list,
workload Get or workload Update). -/
def isControlPlane (e : Ev) : Bool :=
  match e with
  | Ev.respond _ _ => false
  | Ev.notify _ => false
  | _ => true

/-- Whether an event is a workload-related control-plane call (list, Get
or Update of a Deployment or StatefulSet; the secret Get is excluded). -/
def isWorkloadCP (e : Ev) : Bool :=
  match e with
  | Ev.secretGet _ _ => false
  | Ev.respond _ _ => false
  | Ev.notify _ => false
  | _ => true

/-- Whether no event matching `p` occurs before the first 200 response of
the trace. -/
def cpOnlyAfterAck (p : Ev → Bool) : List Ev → Bool
  | [] => true
  | e :: rest => if is200 e then true else !p e && cpOnlyAfterAck p rest

/-- The field names of a JSON object parse result, in order. -/
def topFieldNames (v : Option JVal) : List String :=
  match v with
  | some (JVal.jobj fs) => fs.map (fun p => p.1)
  | _ => []

lemma constantTimeCompare_self (x : List Nat) : constantTimeCompare x x = 1 := by
  simp [constantTimeCompare]

lemma utf8Bytes_cons (c : Char) (l : List Char) :
    utf8Bytes (c :: l) = utf8Char c.toNat ++ utf8Bytes l := rfl

lemma strBytes_sig_head (t : String) :
    strBytes ("sha1=" ++ t) = 115 :: utf8Bytes ('h' :: 'a' :: '1' :: '=' :: t.data) := by
  have hd : ("sha1=" ++ t).data = 's' :: 'h' :: 'a' :: '1' :: '=' :: t.data := rfl
  have h2 : utf8Char (Char.toNat 's') = [115] := by decide
  show utf8Bytes (("sha1=" ++ t).data) = _
  rw [hd, utf8Bytes_cons, h2]
  rfl

lemma strBytes_sig_ne_nil (t : String) : strBytes ("sha1=" ++ t) ≠ [] := by
  rw [strBytes_sig_head]
  simp

lemma build_sig_self (b : List Nat) (k : String) :
    Build.signatureRejected (Build.CreateSignature b k) b k = false := by
  unfold Build.signatureRejected
  rw [constantTimeCompare_self]
  rfl

lemma build_sig_reject_empty (b : List Nat) (k : String) :
    Build.signatureRejected "" b k = true := by
  have h := strBytes_sig_ne_nil (hexStr (hmacSha1 (strBytes k) b))
  have h0 : strBytes "" = [] := rfl
  unfold Build.signatureRejected Build.CreateSignature
  rw [h0]
  unfold constantTimeCompare
  rw [if_neg (fun hh => h hh.symm)]
  rfl

lemma push_sig_self_cur (sd : Push.SecretData) (r b : String) :
    Push.signatureRejected (Push.sigExpected sd r b) sd r b = false := by
  unfold Push.signatureRejected
  rw [constantTimeCompare_self]
  simp

lemma push_sig_self_old (sd : Push.SecretData) (r b : String) :
    Push.signatureRejected (Push.sigExpectedOld sd r b) sd r b = false := by
  unfold Push.signatureRejected
  rw [constantTimeCompare_self]
  simp

lemma push_sig_reject_empty (sd : Push.SecretData) (r b : String) :
    Push.signatureRejected "" sd r b = true := by
  have h1 := strBytes_sig_ne_nil
    (hexStr (Push.CreateSignature (strBytes b) (Push.CreateSignature (strBytes r) sd.masterKey)))
  have h2 := strBytes_sig_ne_nil
    (hexStr (Push.CreateSignature (strBytes b) (Push.CreateSignature (strBytes r) sd.masterKeyOld)))
  have h0 : strBytes "" = [] := rfl
  unfold Push.signatureRejected Push.sigExpected Push.sigExpectedOld Push.CreateSignatureHash
  rw [h0]
  unfold constantTimeCompare
  rw [if_neg (fun hh => h1 hh.symm), if_neg (fun hh => h2 hh.symm)]
  rfl

lemma runRetry_succ (k : WKind) (w : Workload) (att : Nat → AttemptEnv) (pos : Int)
    (img : String) (steps i : Nat) (last : Option KubeErr) :
    runRetry k w att pos img (steps+1) i last =
      match updateAttempt k w (att i) pos img with
      | (evs, res) =>
        match res with
        | ClosureRes.panicked => (evs, RetryOut.panicked)
        | ClosureRes.updated => (evs, RetryOut.success)
        | ClosureRes.failed e =>
          if e.conflict then
            match runRetry k w att pos img steps (i+1) (some e) with
            | (evs2, out) => (evs ++ evs2, out)
          else (evs, RetryOut.errOut e.msg) := by
  conv_lhs => rw [runRetry.eq_def]

lemma runRetry_zero (k : WKind) (w : Workload) (att : Nat → AttemptEnv) (pos : Int)
    (img : String) (i : Nat) (e : KubeErr) :
    runRetry k w att pos img 0 i (some e) = ([], RetryOut.errOut e.msg) := rfl

lemma processAll_cons (k : WKind) (key branch img : String) (att : Workload → Nat → AttemptEnv)
    (w : Workload) (ws : List Workload) :
    processAll k key branch img att (w :: ws) =
      match processOne k key branch img (att w) w with
      | (evs, true) => (evs, true)
      | (evs, false) =>
        match processAll k key branch img att ws with
        | (rest, b) => (evs ++ rest, b) := by
  conv_lhs => rw [processAll.eq_def]

/-- C4: the 200 acknowledgment body of both revisions is the JSON object
produced by json.Marshal of the ResponseMessage struct; because the
Success field carries the struct tag error, the boolean is serialized
under the field name error (not success), followed by the message field. -/
theorem response_body_field_named_error :
    marshalResponseMessage true ("Sucessfully parsed " ++ "r")
      = "\x7b\"error\":true,\"message\":\"Sucessfully parsed r\"\x7d"
    ∧ topFieldNames (jsonParse (marshalResponseMessage true ("Sucessfully parsed " ++ "r")))
      = ["error", "message"] := by
  constructor <;> decide

/-- C6 (counterexample): the label value main.-1 splits into exactly two
parts whose second does not parse as a non-negative integer, yet the
decode of the source succeeds with the negative index -1 (strconv.Atoi
accepts a sign), contradicting the claimed characterization. -/
theorem label_decode_accepts_negative :
    decodeLabelValue "main.-1" = some ("main", -1) ∧ ((-1 : Int) < 0) := by
  constructor <;> decide

/-- C6 (amended): decoding a label value succeeds exactly when the value
splits on the dot into two parts whose second parses under strconv.Atoi
as a (possibly signed) integer; main.2 decodes to (main, 2), while main
and main.x are malformed; and a malformed label on one workload only
skips that workload, leaving the remaining workloads processed. -/
theorem label_decode_characterization :
    (∀ s b n, decodeLabelValue s = some (b, n) ↔
      ∃ p, splitDot s = [b, p] ∧ goAtoi p = some n)
    ∧ decodeLabelValue "main.2" = some ("main", 2)
    ∧ decodeLabelValue "main" = none
    ∧ decodeLabelValue "main.x" = none
    ∧ (∀ k key branch img att (w : Workload) ws,
        decodeLabelValue (lookupLabel w.labels key) = none →
        processAll k key branch img att (w :: ws) = processAll k key branch img att ws) := by
  refine ⟨?_, by decide, by decide, by decide, ?_⟩
  · intro s b n
    constructor
    · intro h
      unfold decodeLabelValue at h
      rcases hs : splitDot s with _ | ⟨x, _ | ⟨y, _ | ⟨z, t⟩⟩⟩ <;> rw [hs] at h
      · simp at h
      · simp at h
      · have h2 : (match goAtoi y with
          | some m => some (x, m)
          | none => none) = some (b, n) := h
        rcases ha : goAtoi y with _ | m <;> rw [ha] at h2
        · simp at h2
        · simp at h2
          obtain ⟨hxb, hmn⟩ := h2
          subst hxb
          subst hmn
          exact ⟨y, rfl, ha⟩
      · simp at h
    · rintro ⟨p, hsplit, hatoi⟩
      show (match splitDot s with
        | [bb, pp] =>
          (match goAtoi pp with
           | some m => some (bb, m)
           | none => none)
        | _ => none) = some (b, n)
      rw [hsplit]
      show (match goAtoi p with
        | some m => some (b, m)
        | none => none) = some (b, n)
      rw [hatoi]
  · intro k key branch img att w ws h
    have hp : processOne k key branch img (att w) w = ([], false) := by
      unfold processOne
      rw [h]
    rw [processAll_cons, hp]
    rcases hr : processAll k key branch img att ws with ⟨rest, b⟩
    simp

/-- C6 (witness): a workload whose label value is malformed is skipped
and the loop result is that of the remaining workloads. -/
theorem label_decode_skip_witness :
    processAll WKind.dep "k" "main" "img" (fun _ _ => {})
        [{ name := "d", ns := "n", labels := [("k", "oops")] }] =
      processAll WKind.dep "k" "main" "img" (fun _ _ => {}) [] :=
  label_decode_characterization.2.2.2.2 WKind.dep "k" "main" "img" (fun _ _ => {})
    { name := "d", ns := "n", labels := [("k", "oops")] } [] (by decide)

/-- C7: the per-workload read-modify-write loop retries only on a
conflict-classified error and performs at most the client-go DefaultRetry
bound of 5 closure invocations: a first-attempt conflict followed by a
successful second attempt yields success with exactly the two attempts
executed; five straight conflicts exhaust the bound and report the last
conflict with no sixth attempt; and a non-conflict error on the first
attempt is terminal immediately. -/
theorem conflict_retry_protocol :
    (∀ k w att (pos : Int) img e,
      (updateAttempt k w (att 0) pos img).2 = ClosureRes.failed e → e.conflict = true →
      (updateAttempt k w (att 1) pos img).2 = ClosureRes.updated →
      runRetry k w att pos img defaultRetrySteps 0 none =
        ((updateAttempt k w (att 0) pos img).1 ++ (updateAttempt k w (att 1) pos img).1,
         RetryOut.success))
    ∧ (∀ k w att (pos : Int) img (e : Nat → KubeErr),
      (∀ i, i < defaultRetrySteps →
        (updateAttempt k w (att i) pos img).2 = ClosureRes.failed (e i) ∧ (e i).conflict = true) →
      runRetry k w att pos img defaultRetrySteps 0 none =
        ((updateAttempt k w (att 0) pos img).1 ++ ((updateAttempt k w (att 1) pos img).1 ++
          ((updateAttempt k w (att 2) pos img).1 ++ ((updateAttempt k w (att 3) pos img).1 ++
            ((updateAttempt k w (att 4) pos img).1 ++ [])))),
         RetryOut.errOut (e 4).msg))
    ∧ (∀ k w att (pos : Int) img e,
      (updateAttempt k w (att 0) pos img).2 = ClosureRes.failed e → e.conflict = false →
      runRetry k w att pos img defaultRetrySteps 0 none =
        ((updateAttempt k w (att 0) pos img).1, RetryOut.errOut e.msg)) := by
  refine ⟨?_, ?_, ?_⟩
  · intro k w att pos img e h0 hc h1
    rcases hu0 : updateAttempt k w (att 0) pos img with ⟨evs0, res0⟩
    rcases hu1 : updateAttempt k w (att 1) pos img with ⟨evs1, res1⟩
    rw [hu0] at h0
    rw [hu1] at h1
    simp at h0 h1
    subst h0
    subst h1
    show runRetry k w att pos img 5 0 none = _
    rw [runRetry_succ, hu0]
    simp only [hc, if_true]
    rw [runRetry_succ, hu1]
  · intro k w att pos img e h
    obtain ⟨h0, c0⟩ := h 0 (by norm_num [defaultRetrySteps])
    obtain ⟨h1, c1⟩ := h 1 (by norm_num [defaultRetrySteps])
    obtain ⟨h2, c2⟩ := h 2 (by norm_num [defaultRetrySteps])
    obtain ⟨h3, c3⟩ := h 3 (by norm_num [defaultRetrySteps])
    obtain ⟨h4, c4⟩ := h 4 (by norm_num [defaultRetrySteps])
    rcases hu0 : updateAttempt k w (att 0) pos img with ⟨evs0, res0⟩
    rcases hu1 : updateAttempt k w (att 1) pos img with ⟨evs1, res1⟩
    rcases hu2 : updateAttempt k w (att 2) pos img with ⟨evs2, res2⟩
    rcases hu3 : updateAttempt k w (att 3) pos img with ⟨evs3, res3⟩
    rcases hu4 : updateAttempt k w (att 4) pos img with ⟨evs4, res4⟩
    rw [hu0] at h0; rw [hu1] at h1; rw [hu2] at h2; rw [hu3] at h3; rw [hu4] at h4
    simp at h0 h1 h2 h3 h4
    subst h0; subst h1; subst h2; subst h3; subst h4
    show runRetry k w att pos img 5 0 none = _
    rw [runRetry_succ, hu0]
    simp only [c0, if_true]
    rw [runRetry_succ, hu1]
    simp only [c1, if_true]
    rw [runRetry_succ, hu2]
    simp only [c2, if_true]
    rw [runRetry_succ, hu3]
    simp only [c3, if_true]
    rw [runRetry_succ, hu4]
    simp only [c4, if_true]
    rw [runRetry_zero]
  · intro k w att pos img e h0 hc
    rcases hu0 : updateAttempt k w (att 0) pos img with ⟨evs0, res0⟩
    rw [hu0] at h0
    simp at h0
    subst h0
    show runRetry k w att pos img 5 0 none = _
    rw [runRetry_succ, hu0]
    simp [hc]

/-- The per-attempt control-plane responses of the C7 witness: a conflict
on the first Update, success on the second. -/
def c7att : Nat → AttemptEnv := fun i =>
  if i = 0 then
    { fresh := Except.ok [{ name := "c", image := "o" }],
      upd := some { msg := "Operation cannot be fulfilled", conflict := true } }
  else { fresh := Except.ok [{ name := "c", image := "o" }] }

/-- C7 (witness): a single conflict followed by success yields overall
success with exactly two Get/Update attempt pairs. -/
theorem conflict_retry_protocol_witness :
    runRetry WKind.dep { name := "d", ns := "n", labels := [] } c7att 0 "img"
        defaultRetrySteps 0 none =
      ([Ev.getDep "n" "d", Ev.updateDep "n" "d" "img",
        Ev.getDep "n" "d", Ev.updateDep "n" "d" "img"], RetryOut.success) := by
  have h := conflict_retry_protocol.1 WKind.dep { name := "d", ns := "n", labels := [] }
    c7att 0 "img" { msg := "Operation cannot be fulfilled", conflict := true }
    (by decide) (by decide) (by decide)
  exact h.trans (by decide)

/-- The concrete push-event JSON of the C8 example. -/
def c8body : String :=
  "\x7b\"github\":\x7b\"repository\":\"r\",\"ref\":\"refs/heads/main\",\"sha\":\"abc123\"\x7d,\"image\":\"img\"\x7d"

/-- The decoded form of the C8 example body. -/
def c8msg : Push.Message :=
  { github := { sha := "abc123", repository := "r", ref := "refs/heads/main" }, image := "img" }

/-- C8: decoding the push-event example strips the refs/heads/ ref-path
to obtain the branch and appends the commit hash as the image tag,
yielding the normalized target (r, main, img:abc123). -/
theorem push_decode_normalizes_target :
    Push.unmarshal c8body = Except.ok c8msg
    ∧ Push.pushTarget c8msg = { repository := "r", branch := "main", image := "img:abc123" } := by
  exact ⟨rfl, by decide⟩

/-- C9: a signature produced by signing the body with a candidate key is
accepted: in main.go the single environment-derived candidate matches
itself, and in the unnamed revision a signature computed under either the
current or the previous repository-derived key passes the any-candidate
constant-time comparison. -/
theorem verify_accepts_candidate_keys :
    (∀ (b : List Nat) (k : String),
      Build.signatureRejected (Build.CreateSignature b k) b k = false)
    ∧ (∀ (body repo : String) (sd : Push.SecretData) (header : String),
      header = Push.sigExpected sd repo body ∨ header = Push.sigExpectedOld sd repo body →
      Push.signatureRejected header sd repo body = false) := by
  refine ⟨fun b k => build_sig_self b k, ?_⟩
  intro body repo sd header h
  rcases h with h | h <;> subst h
  · exact push_sig_self_cur sd repo body
  · exact push_sig_self_old sd repo body

/-- C9 (witness): the current-key signature of a concrete body is
accepted by the rotating-key verifier. -/
theorem verify_accepts_candidate_keys_witness :
    Push.signatureRejected
        (Push.sigExpected { masterKey := [1], masterKeyOld := [2] } "r" "body")
        { masterKey := [1], masterKeyOld := [2] } "r" "body" = false :=
  verify_accepts_candidate_keys.2 "body" "r" { masterKey := [1], masterKeyOld := [2] }
    (Push.sigExpected { masterKey := [1], masterKeyOld := [2] } "r" "body") (Or.inl rfl)

/-- C10: the build-completion handler uses only the first element of the
decoded images list; the trace is unchanged under any replacement of the
remaining image references. -/
theorem only_first_image_used :
    ∀ (env : Build.BuildEnv) (m : Build.Message) (i : String) (r r' : List String),
      Build.afterDecode { m with images := i :: r } env =
        Build.afterDecode { m with images := i :: r' } env := by
  intro env m i r r'
  unfold Build.afterDecode
  simp

lemma updateAttempt_no_respond (k : WKind) (w : Workload) (env : AttemptEnv) (pos : Int)
    (img : String) (s : Nat) (m : String) :
    Ev.respond s m ∉ (updateAttempt k w env pos img).1 := by
  unfold updateAttempt
  rcases henv : env.fresh with e | cs
  · cases k <;> simp [getEv]
  · by_cases h1 : pos < (cs.length : Int)
    · by_cases h2 : pos < 0
      · simp only [h1, if_true, h2]
        cases k <;> simp [getEv]
      · simp only [h1, if_true, h2, if_false]
        cases k <;> simp [getEv, updEv]
    · simp only [h1, if_false]
      cases k <;> simp [getEv]

lemma runRetry_no_respond (k : WKind) (w : Workload) (att : Nat → AttemptEnv) (pos : Int)
    (img : String) :
    ∀ (steps i : Nat) (last : Option KubeErr) (s : Nat) (m : String),
      Ev.respond s m ∉ (runRetry k w att pos img steps i last).1 := by
  intro steps
  induction steps with
  | zero =>
    intro i last s m
    cases last <;> simp [runRetry]
  | succ n ih =>
    intro i last s m
    rw [runRetry_succ]
    rcases hu : updateAttempt k w (att i) pos img with ⟨evs, res⟩
    have hne : Ev.respond s m ∉ evs := by
      have := updateAttempt_no_respond k w (att i) pos img s m
      rw [hu] at this
      exact this
    cases res with
    | panicked => exact hne
    | updated => exact hne
    | failed e =>
      by_cases hc : e.conflict
      · simp only [hc, if_true]
        rcases hr : runRetry k w att pos img n (i+1) (some e) with ⟨evs2, out⟩
        have hne2 : Ev.respond s m ∉ evs2 := by
          have := ih (i+1) (some e) s m
          rw [hr] at this
          exact this
        simp only [List.mem_append]
        rintro (h | h)
        · exact hne h
        · exact hne2 h
      · simp only [hc, if_false]
        exact hne

lemma processOne_no_respond (k : WKind) (key branch img : String) (att : Nat → AttemptEnv)
    (w : Workload) (s : Nat) (m : String) :
    Ev.respond s m ∉ (processOne k key branch img att w).1 := by
  unfold processOne
  rcases hd : decodeLabelValue (lookupLabel w.labels key) with _ | ⟨b, pos⟩
  · simp
  · by_cases hb : b = branch
    · simp only [hb, if_true]
      rcases hr : runRetry k w att pos img defaultRetrySteps 0 none with ⟨evs, out⟩
      have hne : Ev.respond s m ∉ evs := by
        have := runRetry_no_respond k w att pos img defaultRetrySteps 0 none s m
        rw [hr] at this
        exact this
      cases out with
      | panicked => exact hne
      | errOut e => exact hne
      | success =>
        simp only [List.mem_append]
        rintro (h | h)
        · exact hne h
        · simp at h
    · simp [hb]

lemma processAll_no_respond (k : WKind) (key branch img : String)
    (att : Workload → Nat → AttemptEnv) (s : Nat) (m : String) :
    ∀ ws : List Workload, Ev.respond s m ∉ (processAll k key branch img att ws).1 := by
  intro ws
  induction ws with
  | nil => simp [processAll]
  | cons w rest ih =>
    rw [processAll_cons]
    rcases hp : processOne k key branch img (att w) w with ⟨evs, flag⟩
    have hne : Ev.respond s m ∉ evs := by
      have := processOne_no_respond k key branch img (att w) w s m
      rw [hp] at this
      exact this
    cases flag with
    | true => exact hne
    | false =>
      rcases hr : processAll k key branch img att rest with ⟨evs2, b⟩
      have hne2 : Ev.respond s m ∉ evs2 := by
        rw [hr] at ih
        exact ih
      simp only [List.mem_append]
      rintro (h | h)
      · exact hne h
      · exact hne2 h

/-- C2 (amended): in the build-completion variant no control-plane call
of any kind precedes the 200 acknowledgment; in the rotating-key variant
the secret is read from the control plane before authentication and thus
before the acknowledgment, but every workload-related control-plane call
(list, Get, Update) starts only after the 200 acknowledgment is written. -/
theorem ack_before_workload_queries :
    (∀ (req : Request) (env : Build.BuildEnv),
      cpOnlyAfterAck isControlPlane (Build.Webhook req env).1 = true)
    ∧ (∀ (req : Request) (env : Push.PushEnv),
      cpOnlyAfterAck isWorkloadCP (Push.Webhook req env).1 = true) := by
  constructor
  · intro req env
    unfold Build.Webhook
    split
    · decide
    · split
      · simp [cpOnlyAfterAck, is200, isControlPlane]
      · split
        · decide
        · split
          · simp [cpOnlyAfterAck, is200, isControlPlane]
          · unfold Build.afterDecode
            split
            · decide
            · split
              · simp [cpOnlyAfterAck, is200]
              · simp [cpOnlyAfterAck, is200]
  · intro req env
    unfold Push.Webhook
    split
    · decide
    · split
      · simp [cpOnlyAfterAck, is200, isWorkloadCP]
      · split
        · simp [cpOnlyAfterAck, is200, isWorkloadCP]
        · split
          · simp [cpOnlyAfterAck, is200, isWorkloadCP]
          · split
            · simp [cpOnlyAfterAck, is200, isWorkloadCP]
            · split
              · simp [cpOnlyAfterAck, is200, isWorkloadCP]
              · split
                · simp [cpOnlyAfterAck, is200, isWorkloadCP]
                · dsimp only
                  split <;> simp [cpOnlyAfterAck, is200, isWorkloadCP]

/-- C3 (amended): in the build-completion variant signature verification
precedes decoding, so any readable request whose signature fails the
single-candidate comparison is answered 401 regardless of body content;
in the rotating-key variant decoding precedes verification (the candidate
keys are derived from the decoded repository), so the 401 is produced
only for requests whose body decodes and whose secret read succeeds,
while an undecodable body is answered 500 before any verification. -/
theorem unauthenticated_401_conditions :
    (∀ (req : Request) (env : Build.BuildEnv) (bodyStr : String),
      req.path = "/" → req.method = "POST" → req.body = Except.ok bodyStr →
      Build.signatureRejected req.sigHeader (strBytes bodyStr) env.hmacSecret = true →
      Build.Webhook req env = ([Ev.respond 401 "hmac signature verification failed"], false))
    ∧ (∀ (req : Request) (env : Push.PushEnv) (bodyStr : String) (msg : Push.Message)
        (sd : Push.SecretData),
      req.path = "/" → req.method = "POST" → req.body = Except.ok bodyStr →
      Push.unmarshal bodyStr = Except.ok msg → env.secret = Except.ok sd →
      Push.signatureRejected req.sigHeader sd msg.github.repository bodyStr = true →
      Push.Webhook req env = ([Ev.secretGet env.secretNs env.secretName,
        Ev.respond 401 "hmac signature verification failed"], false)) := by
  constructor
  · intro req env bodyStr hp hm hb hsig
    unfold Build.Webhook
    simp [hp, hm, hb, hsig]
  · intro req env bodyStr msg sd hp hm hb hU hS hsig
    unfold Push.Webhook
    simp [hp, hm, hb, hU, hS, hsig]

/-- C3 (witness): a readable request whose empty signature header matches
no candidate is answered 401 by the build-completion handler whatever its
body holds. -/
theorem unauthenticated_401_witness :
    Build.Webhook { path := "/", method := "POST", body := Except.ok "not json", sigHeader := "" }
        { hmacSecret := "k" } =
      ([Ev.respond 401 "hmac signature verification failed"], false) :=
  unauthenticated_401_conditions.1
    { path := "/", method := "POST", body := Except.ok "not json", sigHeader := "" }
    { hmacSecret := "k" } "not json" rfl rfl rfl (build_sig_reject_empty (strBytes "not json") "k")

/-- C5 (amended): the build-completion variant answers 400 and performs
no control-plane call when the decoded payload lacks a non-empty first
image; the push-event variant has no such check and never answers 400 on
any request. -/
theorem missing_image_400_build_only :
    (∀ (req : Request) (env : Build.BuildEnv) (bodyStr : String) (msg : Build.Message),
      req.path = "/" → req.method = "POST" → req.body = Except.ok bodyStr →
      Build.signatureRejected req.sigHeader (strBytes bodyStr) env.hmacSecret = false →
      Build.unmarshal bodyStr = Except.ok msg →
      (msg.images.length < 1 ∨ msg.images.getD 0 "" = "") →
      Build.Webhook req env = ([Ev.respond 400 "cannot update without a new image tag"], false))
    ∧ (∀ (req : Request) (env : Push.PushEnv) (m : String),
      Ev.respond 400 m ∉ (Push.Webhook req env).1) := by
  constructor
  · intro req env bodyStr msg hp hm hb hsig hU him
    unfold Build.Webhook
    simp only [hp, hm, hb, hsig]
    rw [if_neg (by simp)]
    simp only [hU]
    unfold Build.afterDecode
    rw [if_pos him]
    simp
  · intro req env m
    unfold Push.Webhook
    split
    · simp
    · split
      · simp
      · split
        · simp
        · split
          · simp
          · split
            · simp
            · split
              · simp
              · split
                · simp
                · dsimp only
                  split
                  · simp only [List.cons_append, List.nil_append, List.mem_cons]
                    rintro (h | h | h | h | h)
                    · exact absurd h (by simp)
                    · exact absurd h (by simp)
                    · exact absurd h (by simp)
                    · exact absurd h (by simp)
                    · exact absurd h (processAll_no_respond _ _ _ _ _ 400 m _)
                  · simp only [List.append_assoc, List.cons_append, List.nil_append,
                      List.mem_cons, List.mem_append]
                    rintro (h | h | h | h | (h | h))
                    · exact absurd h (by simp)
                    · exact absurd h (by simp)
                    · exact absurd h (by simp)
                    · exact absurd h (by simp)
                    · exact absurd h (processAll_no_respond _ _ _ _ _ 400 m _)
                    · exact absurd h (processAll_no_respond _ _ _ _ _ 400 m _)

/-- The concrete build-completion body of the C1 failing input. -/
def c1body : String :=
  "\x7b\"id\":\"b1\",\"source\":\x7b\"repoSource\":\x7b\"repoName\":\"R\",\"branchName\":\"main\"\x7d\x7d,\"images\":[\"img:v2\"]\x7d"

/-- The decoded form of the C1 body. -/
def c1msg : Build.Message :=
  { id := "b1", source := { repoSource := { repoName := "R", branchName := "main" } },
    images := ["img:v2"] }

/-- The C1 request, correctly signed under the process secret. -/
def c1req : Request :=
  { path := "/", method := "POST", body := Except.ok c1body,
    sigHeader := Build.CreateSignature (strBytes c1body) "k0secret" }

/-- The single listed deployment of the C1 environment, labeled with the
negative container index -1. -/
def c1workload : Workload :=
  { name := "d2", ns := "nsB",
    labels := [("kube.volkn.cloud/cloud-build-cd-name_r", "main.-1")] }

/-- The C1 environment: one matching deployment whose label value carries
the negative container index -1, and a one-container fresh Get. -/
def c1env : Build.BuildEnv :=
  { hmacSecret := "k0secret",
    deps := Except.ok [c1workload],
    depAtt := fun _ _ => { fresh := Except.ok [{ name := "c", image := "old" }] } }

/-- C1 (code bug): a deployment labeled with branch main and container
index -1 passes the only bounds check (len > pos), so the handler indexes
the container list at -1 and the Go runtime panics after the fresh Get and
before any Update, killing the whole request-handling flow instead of
aborting only that workload with an error. -/
theorem negative_index_panics_request :
    Build.Webhook c1req c1env =
      ([Ev.respond 200 "\x7b\"error\":true,\"message\":\"Sucessfully parsed R\"\x7d",
        Ev.listDeps "kube.volkn.cloud/cloud-build-cd-name_r",
        Ev.getDep "nsB" "d2"], true) := by
  have hU : Build.unmarshal c1body = Except.ok c1msg := rfl
  unfold Build.Webhook
  simp only [c1req, c1env, hU, build_sig_self]
  decide

/-- The concrete push-event body of the C2 counterexample. -/
def c2body : String :=
  "\x7b\"github\":\x7b\"repository\":\"r\",\"ref\":\"refs/heads/main\",\"sha\":\"abc123\"\x7d,\"image\":\"img\"\x7d"

/-- The decoded form of the C2 body. -/
def c2msg : Push.Message :=
  { github := { sha := "abc123", repository := "r", ref := "refs/heads/main" }, image := "img" }

/-- The secret material of the C2 counterexample. -/
def c2sd : Push.SecretData := { masterKey := strBytes "mk", masterKeyOld := strBytes "mko" }

/-- The C2 request, signed under the current repository-derived key. -/
def c2req : Request :=
  { path := "/", method := "POST", body := Except.ok c2body,
    sigHeader := Push.sigExpected c2sd "r" c2body }

/-- The C2 environment: a readable secret and empty workload lists. -/
def c2env : Push.PushEnv :=
  { secretNs := "sns", secretName := "snm", secret := Except.ok c2sd }

/-- C2 (counterexample): an authenticated and successfully decoded
request to the rotating-key variant triggers a control-plane call (the
Secrets Get) strictly before the 200 acknowledgment is written, so the
acknowledgment does not precede every control-plane query. -/
theorem secret_get_precedes_ack :
    Push.Webhook c2req c2env =
      ([Ev.secretGet "sns" "snm",
        Ev.respond 200 "\x7b\"error\":true,\"message\":\"Sucessfully parsed r\"\x7d",
        Ev.listDeps "ki-cd/r", Ev.listSets "ki-cd/r"], false)
    ∧ isControlPlane (Ev.secretGet "sns" "snm") = true
    ∧ cpOnlyAfterAck isControlPlane (Push.Webhook c2req c2env).1 = false := by
  have hU : Push.unmarshal c2body = Except.ok c2msg := rfl
  have htrace : Push.Webhook c2req c2env =
      ([Ev.secretGet "sns" "snm",
        Ev.respond 200 "\x7b\"error\":true,\"message\":\"Sucessfully parsed r\"\x7d",
        Ev.listDeps "ki-cd/r", Ev.listSets "ki-cd/r"], false) := by
    unfold Push.Webhook
    simp only [c2req, c2env, hU, c2msg, push_sig_self_cur]
    decide
  refine ⟨htrace, by decide, ?_⟩
  rw [htrace]
  decide

/-- The secret material of the C3 counterexample. -/
def c3sd : Push.SecretData := { masterKey := strBytes "mk3", masterKeyOld := strBytes "mko3" }

/-- C3 (counterexample): a POST to the root path whose body is not
decodable JSON is answered 500 by the rotating-key variant before any
signature verification, although its empty signature header matches no
candidate signature, so an unauthenticated request does not get 401
regardless of body decodability. -/
theorem undecodable_body_500_not_401 :
    Push.Webhook { path := "/", method := "POST", body := Except.ok "x", sigHeader := "" }
        { secretNs := "sns", secretName := "snm", secret := Except.ok c3sd } =
      ([Ev.respond 500 "unexpected end of JSON input"], false)
    ∧ Push.signatureRejected "" c3sd "" "x" = true := by
  refine ⟨by decide, push_sig_reject_empty c3sd "" "x"⟩

/-- The concrete push-event body of the C5 counterexample: its image
reference is empty. -/
def c5body : String :=
  "\x7b\"github\":\x7b\"repository\":\"r\",\"ref\":\"refs/heads/main\",\"sha\":\"s1\"\x7d,\"image\":\"\"\x7d"

/-- The decoded form of the C5 body. -/
def c5msg : Push.Message :=
  { github := { sha := "s1", repository := "r", ref := "refs/heads/main" }, image := "" }

/-- The secret material of the C5 counterexample. -/
def c5sd : Push.SecretData := { masterKey := strBytes "mk5", masterKeyOld := strBytes "mko5" }

/-- The C5 request, signed under the previous repository-derived key. -/
def c5req : Request :=
  { path := "/", method := "POST", body := Except.ok c5body,
    sigHeader := Push.sigExpectedOld c5sd "r" c5body }

/-- The single listed deployment of the C5 environment, matching branch
main at container index 0. -/
def c5workload : Workload :=
  { name := "d1", ns := "nsA", labels := [("ki-cd/r", "main.0")] }

/-- The C5 environment: one matching deployment with a successful
one-container fresh Get and Update. -/
def c5env : Push.PushEnv :=
  { secretNs := "sns", secretName := "snm", secret := Except.ok c5sd,
    deps := Except.ok [c5workload],
    depAtt := fun _ _ => { fresh := Except.ok [{ name := "c", image := "old" }] } }

/-- C5 (counterexample): an authenticated request whose decoded payload
has an empty image reference is acknowledged with 200 (not 400) by the
rotating-key variant and the cluster update proceeds, writing the
degenerate image reference :s1. -/
theorem push_empty_image_gets_200 :
    Push.Webhook c5req c5env =
      ([Ev.secretGet "sns" "snm",
        Ev.respond 200 "\x7b\"error\":true,\"message\":\"Sucessfully parsed r\"\x7d",
        Ev.listDeps "ki-cd/r", Ev.listSets "ki-cd/r",
        Ev.getDep "nsA" "d1", Ev.updateDep "nsA" "d1" ":s1",
        Ev.notify "Successfully updated deployment d1 in namespace nsA with the newest image tag."],
       false)
    ∧ c5msg.image = "" := by
  have hU : Push.unmarshal c5body = Except.ok c5msg := rfl
  refine ⟨?_, by decide⟩
  unfold Push.Webhook
  simp only [c5req, c5env, hU, c5msg, push_sig_self_old]
  decide

/-- The concrete build-completion body of the C5 witness: its images
list is empty. -/
def c5wbody : String :=
  "\x7b\"source\":\x7b\"repoSource\":\x7b\"repoName\":\"r\",\"branchName\":\"main\"\x7d\x7d,\"images\":[]\x7d"

/-- The decoded form of the C5 witness body. -/
def c5wmsg : Build.Message :=
  { source := { repoSource := { repoName := "r", branchName := "main" } }, images := [] }

/-- C5 (witness): an authenticated build-completion request with an empty
images list is answered 400 with no control-plane call. -/
theorem missing_image_400_build_only_witness :
    Build.Webhook
        { path := "/", method := "POST", body := Except.ok c5wbody,
          sigHeader := Build.CreateSignature (strBytes c5wbody) "kw" }
        { hmacSecret := "kw" } =
      ([Ev.respond 400 "cannot update without a new image tag"], false) :=
  missing_image_400_build_only.1
    { path := "/", method := "POST", body := Except.ok c5wbody,
      sigHeader := Build.CreateSignature (strBytes c5wbody) "kw" }
    { hmacSecret := "kw" } c5wbody c5wmsg rfl rfl rfl
    (build_sig_self (strBytes c5wbody) "kw") rfl (Or.inl (by decide))

set_option maxRecDepth 100000 in
/-- The SHA-1 embedding reproduces the standard test vector for abc. -/
theorem sha1_test_vector :
    hexStr (sha1 (strBytes "abc")) = "a9993e364706816aba3e25717850c26c9cd0d89d" := by
  decide

set_option maxRecDepth 400000 in
/-- The HMAC-SHA1 embedding reproduces the standard quick-brown-fox test
vector. -/
theorem hmacSha1_test_vector :
    hexStr (hmacSha1 (strBytes "key") (strBytes "The quick brown fox jumps over the lazy dog"))
      = "de7c9b85b8b78aa6bc8a7a36f70a90701c9db4d9" := by
  decide

end KubeCD
